import Mathlib

/-!
Verification of the ImagesConnector pipeline (src/main.rs).

The program batch-combines pairs of images from two directories into
vertically stacked composites, derives a two-color palette from the content
image by quantization, and overlays the fixed labels "20"/"19" onto each
composite.  We embed the pure content of each Rust function: decoded images
become explicit pixel buffers, filesystem decode/save outcomes become
explicit parameters, Rust panics become a distinguished outcome, and the
external exoquant quantizer is abstracted as the palette it returns
(the palette is a parameter of the palette-consuming code).
-/

deriving instance DecidableEq for Except

set_option maxRecDepth 100000

namespace ImagesConnector

/-- the error enum `AppError` from src/main.rs. -/
inductive AppError
  | NotFound
  | MismatchSize
  | CouldntSaveFile
  | NotEnoughArguments
deriving DecidableEq, Repr

/-- a decoded RGBA image as in `image::open(..).to_rgba()`: dimensions plus
the raw interleaved byte buffer (`into_raw`), 4 bytes per pixel, row-major. -/
structure Img where
  width : Nat
  height : Nat
  data : List Nat
deriving DecidableEq, Repr

/-- buffer length matches the dimensions (what `to_rgba().into_raw()`
guarantees for a decoded image). -/
def Img.wf (img : Img) : Prop :=
  img.data.length = img.width * img.height * 4

instance (img : Img) : Decidable img.wf := by
  unfold Img.wf; infer_instance

/-- outcome of `join_photos_vertically`: the returned `Result<(), AppError>`
together with the file written at `result_path` (`none` when nothing was
written there). -/
structure JoinResult where
  result : Except AppError Unit
  written : Option Img
deriving DecidableEq, Repr

/-- `join_photos_vertically(first_path, second_path, result_path)`:
`image::open` of each source is modelled by its outcome (`none` = the open
or decode failed, mapped to `NotFound` by the `From<image::ImageError>`
impl); `saveOk` models whether `image::save_buffer` succeeds (an
`std::io::Error` is mapped to `CouldntSaveFile`).  On equal widths the
combined buffer is `first_pxs.extend(second_pxs)` with width the shared
width and height the sum of heights. -/
def join_photos_vertically (firstDec secondDec : Option Img) (saveOk : Bool) :
    JoinResult :=
  match firstDec with
  | none => ⟨Except.error AppError.NotFound, none⟩
  | some first =>
    match secondDec with
    | none => ⟨Except.error AppError.NotFound, none⟩
    | some second =>
      if first.width ≠ second.width then
        ⟨Except.error AppError.MismatchSize, none⟩
      else
        let img : Img :=
          ⟨first.width, first.height + second.height, first.data ++ second.data⟩
        if saveOk then ⟨Except.ok (), some img⟩
        else ⟨Except.error AppError.CouldntSaveFile, none⟩

/-- the batch driver's composite step for one (month, image) pair: `main`
calls `join_photos_vertically(image.as_path(), month.as_path(), image_path)`,
i.e. the content image is the FIRST argument and the month image the
SECOND. -/
def driver_join (monthDec imageDec : Option Img) (saveOk : Bool) : JoinResult :=
  join_photos_vertically imageDec monthDec saveOk

/-- a color as exoquant's `Color` struct (named ExoColor in the source `use`). -/
structure ExoColor where
  r : Nat
  g : Nat
  b : Nat
  a : Nat
deriving DecidableEq, Repr

/-- the `Color` struct of src/main.rs: two RGBA quadruples. -/
structure Color where
  primary : List Nat
  secondary : List Nat
deriving DecidableEq, Repr

/-- the palette-consuming tail of `get_color_palette`: the quantized palette
produced by exoquant's `convert_to_indexed` (external crate) is taken as a
parameter; Rust's panicking index `palette[0]` / `palette[200]` is modelled
by `Option` (`none` = out-of-bounds panic).  Both entries get their alpha
byte replaced by 255. -/
def get_color_palette (palette : List ExoColor) : Option Color :=
  match palette.get? 0, palette.get? 200 with
  | some p0, some p200 =>
    some ⟨[p0.r, p0.g, p0.b, 255], [p200.r, p200.g, p200.b, 255]⟩
  | _, _ => none

/-- outcome of `write_text`: the Rust function either panics (the two
`expect`/`unwrap` calls on open and font loading) or returns a `u32`. -/
inductive WriteTextOutcome
  | panicked
  | ret (code : Nat)
deriving DecidableEq, Repr

/-- `write_text(path, color)`: opening the composite uses `expect`, so an
open failure panics; the bundled font always loads; the final
`img.save(path)` yields `1` on `Ok` and `0` on `Err`. -/
def write_text (openOk saveOk : Bool) : WriteTextOutcome :=
  if openOk then
    if saveOk then WriteTextOutcome.ret 1 else WriteTextOutcome.ret 0
  else WriteTextOutcome.panicked

/-- the `Scale` passed to `draw_text_mut`; the source computes it from
`height = 250.0` as `x = height * 1.0, y = height` (exact small constants,
modelled as naturals). -/
structure FontScale where
  x : Nat
  y : Nat
deriving DecidableEq, Repr

/-- one observable drawing/saving action of `write_text`. -/
inductive DrawOp
  | drawText (color : List Nat) (x y : Nat) (scale : FontScale) (text : String)
  | saveTo (path : String)
deriving DecidableEq, Repr

/-- the sequence of drawing actions `write_text` performs on a successfully
opened composite, in source order: `draw_text_mut(.., primary, 380,
580 + 2455, scale, font, "20")`, then the same with secondary, 660 and
"19", then `img.save(path)` to the very path it was opened from. -/
def write_text_ops (path : String) (color : Color) : List DrawOp :=
  let height : Nat := 250
  let scale : FontScale := ⟨height * 1, height⟩
  [ DrawOp.drawText color.primary 380 (580 + 2455) scale "20",
    DrawOp.drawText color.secondary 660 (580 + 2455) scale "19",
    DrawOp.saveTo path ]

/-- the `Paths` struct of src/main.rs. -/
structure Paths where
  first_path : String
  second_path : String
  export_path : String
deriving DecidableEq, Repr

/-- `Paths::new(args)`: `args` is `std::env::args()` as a list, its head the
program name.  Fewer than 4 elements is `NotEnoughArguments`; otherwise the
program name is skipped and the next three elements are taken, any further
elements never being read. -/
def Paths.new (args : List String) : Except AppError Paths :=
  if args.length < 4 then Except.error AppError.NotEnoughArguments
  else
    match args with
    | _ :: a :: b :: c :: _ => Except.ok ⟨a, b, c⟩
    | _ => Except.error AppError.NotEnoughArguments

/-- what `main` does with the CLI arguments: on any `Paths::new` error it
runs `print_help()` and `process::exit(1)` (modelled as `usageExit 1`,
before any directory listing or image work); on success it proceeds with
the parsed paths. -/
inductive CliOutcome
  | usageExit (code : Nat)
  | proceed (paths : Paths)
deriving DecidableEq, Repr

/-- the argument-handling prefix of `main`. -/
def main_args (args : List String) : CliOutcome :=
  match Paths.new args with
  | Except.error _ => CliOutcome.usageExit 1
  | Except.ok p => CliOutcome.proceed p

/-- outcome of one inner-loop body of `main` for a (month, image) pair:
`join_photos_vertically(..).unwrap()` panics on any join error, then
`write_text(image_path, &color);` is executed and its returned status is
discarded (statement position). -/
inductive PairOutcome
  | panicked
  | done (written : Option Img)
deriving DecidableEq, Repr

/-- one (month, image) iteration of the batch loops in `main`. -/
def process_pair (monthDec imageDec : Option Img)
    (joinSaveOk overlayOpenOk overlaySaveOk : Bool) : PairOutcome :=
  let jr := driver_join monthDec imageDec joinSaveOk
  match jr.result with
  | Except.error _ => PairOutcome.panicked
  | Except.ok _ =>
    match write_text overlayOpenOk overlaySaveOk with
    | WriteTextOutcome.panicked => PairOutcome.panicked
    | WriteTextOutcome.ret _ => PairOutcome.done jr.written

/-- the output path `main` builds for a pair,
`format!("{}/{}-{}.png", export_path, month_stem, image_stem)`, over
characters so that collisions can be reasoned about. -/
def output_path (export_path month_stem image_stem : List Char) : List Char :=
  export_path ++ '/' :: (month_stem ++ '-' :: (image_stem ++ ['.', 'p', 'n', 'g']))

/-- the 2×2 month image jan.png of the spec's concrete scenario: four pixels
of RGBA (10, 10, 10, 255). -/
def janImg : Img :=
  ⟨2, 2, [10, 10, 10, 255, 10, 10, 10, 255, 10, 10, 10, 255, 10, 10, 10, 255]⟩

/-- the 2×2 content image cat.png of the spec's concrete scenario: four
pixels of RGBA (20, 20, 20, 255). -/
def catImg : Img :=
  ⟨2, 2, [20, 20, 20, 255, 20, 20, 20, 255, 20, 20, 20, 255, 20, 20, 20, 255]⟩

/-- a 1×1 image used as a concrete witness input. -/
def narrowImg : Img := ⟨1, 1, [1, 2, 3, 4]⟩

/-- a 2×1 image used as a concrete witness input of a different width. -/
def wideImg : Img := ⟨2, 1, [5, 6, 7, 8, 9, 10, 11, 12]⟩

/-- a concrete 201-entry palette whose entry 0 is (1, 2, 3, 7) and whose
entries 1..200 are (4, 5, 6, 9); no entry is fully opaque. -/
def c4pal : List ExoColor :=
  ⟨1, 2, 3, 7⟩ :: List.replicate 200 ⟨4, 5, 6, 9⟩

/- ------------------------------------------------------------------ -/
/- Shared helper lemmas                                               -/
/- ------------------------------------------------------------------ -/

/-- on equal widths and a succeeding save, `join_photos_vertically` returns
`Ok(())` and writes the concatenated buffer, whose first `W * H1 * 4` bytes
are exactly the first image's buffer and whose remaining bytes are exactly
the second image's buffer. -/
theorem join_ok_bands (first second : Img) (h1 : first.wf)
    (hw : first.width = second.width) :
    (join_photos_vertically (some first) (some second) true).result =
      Except.ok () ∧
    (join_photos_vertically (some first) (some second) true).written =
      some ⟨first.width, first.height + second.height,
        first.data ++ second.data⟩ ∧
    (first.data ++ second.data).take (first.width * first.height * 4) =
      first.data ∧
    (first.data ++ second.data).drop (first.width * first.height * 4) =
      second.data := by
  refine ⟨?_, ?_, ?_, ?_⟩
  · simp [join_photos_vertically, hw]
  · simp [join_photos_vertically, hw]
  · rw [← h1]
    exact List.take_left _ _
  · rw [← h1]
    exact List.drop_left _ _

/-- splitting at the first `'-'`: two dash-free prefixes followed by a dash
determine each other. -/
theorem append_dash_inj : ∀ (m1 : List Char) {m2 r1 r2 : List Char},
    '-' ∉ m1 → '-' ∉ m2 → m1 ++ '-' :: r1 = m2 ++ '-' :: r2 →
    m1 = m2 ∧ r1 = r2 := by
  intro m1
  induction m1 with
  | nil =>
    intro m2 r1 r2 _ h2 h
    cases m2 with
    | nil =>
      simp only [List.nil_append] at h
      exact ⟨rfl, (List.cons.injEq _ _ _ _ ▸ h).2⟩
    | cons c t =>
      simp only [List.nil_append, List.cons_append] at h
      have hc : '-' = c := (List.cons.injEq _ _ _ _ ▸ h).1
      exact absurd (hc ▸ List.mem_cons_self c t) h2
  | cons c t ih =>
    intro m2 r1 r2 h1 h2 h
    cases m2 with
    | nil =>
      simp only [List.nil_append, List.cons_append] at h
      have hc : c = '-' := (List.cons.injEq _ _ _ _ ▸ h).1
      exact absurd (hc ▸ List.mem_cons_self c t) h1
    | cons c2 t2 =>
      simp only [List.cons_append] at h
      have hc : c = c2 := (List.cons.injEq _ _ _ _ ▸ h).1
      have ht : t ++ '-' :: r1 = t2 ++ '-' :: r2 :=
        (List.cons.injEq _ _ _ _ ▸ h).2
      have h1' : '-' ∉ t := fun hm => h1 (List.mem_cons_of_mem c hm)
      have h2' : '-' ∉ t2 := fun hm => h2 (List.mem_cons_of_mem c2 hm)
      obtain ⟨hts, hrs⟩ := ih h1' h2' ht
      exact ⟨by rw [hc, hts], hrs⟩

/-- for dash-free stems the output path determines both stems. -/
theorem output_path_inj {e m1 m2 i1 i2 : List Char}
    (h1 : '-' ∉ m1) (h2 : '-' ∉ m2)
    (h : output_path e m1 i1 = output_path e m2 i2) : m1 = m2 ∧ i1 = i2 := by
  unfold output_path at h
  have h' := List.append_cancel_left h
  have h'' : m1 ++ '-' :: (i1 ++ ['.', 'p', 'n', 'g']) =
      m2 ++ '-' :: (i2 ++ ['.', 'p', 'n', 'g']) :=
    (List.cons.injEq _ _ _ _ ▸ h').2
  obtain ⟨hm, hi⟩ := append_dash_inj m1 h1 h2 h''
  exact ⟨hm, List.append_cancel_right hi⟩

/- ------------------------------------------------------------------ -/
/- Claim theorems                                                     -/
/- ------------------------------------------------------------------ -/

/-- C1 (counterexample): the claim says the month image is the top band; on
the spec's own concrete scenario (jan.png all-10 pixels, cat.png all-20
pixels, both 2×2) the driver writes `cat.data ++ jan.data`, so the top half
of `jan-cat.png` equals cat.png's pixels, not jan.png's. -/
theorem c1_month_on_top_cex :
    (driver_join (some janImg) (some catImg) true).written =
      some ⟨2, 4, catImg.data ++ janImg.data⟩ ∧
    ¬ (catImg.data ++ janImg.data).take (2 * 2 * 4) = janImg.data := by
  decide

/-- C1 (amended): for every (month, image) pair processed by the batch
driver, the output composite has the CONTENT image as the top band and the
MONTH image as the bottom band: with equal widths the driver writes a
buffer of width `image.width` and height `image.height + month.height`
whose top region is the content image's pixels and whose bottom region is
the month image's pixels. -/
theorem c1_driver_bands (month image : Img) (hi : image.wf)
    (hw : image.width = month.width) :
    (driver_join (some month) (some image) true).result = Except.ok () ∧
    (driver_join (some month) (some image) true).written =
      some ⟨image.width, image.height + month.height,
        image.data ++ month.data⟩ ∧
    (image.data ++ month.data).take (image.width * image.height * 4) =
      image.data ∧
    (image.data ++ month.data).drop (image.width * image.height * 4) =
      month.data :=
  join_ok_bands image month hi hw

/-- C1 (witness): the amended claim on the concrete jan/cat scenario. -/
theorem c1_driver_bands_witness :
    catImg.wf ∧ catImg.width = janImg.width ∧
    ((driver_join (some janImg) (some catImg) true).result = Except.ok () ∧
     (driver_join (some janImg) (some catImg) true).written =
       some ⟨catImg.width, catImg.height + janImg.height,
         catImg.data ++ janImg.data⟩ ∧
     (catImg.data ++ janImg.data).take (catImg.width * catImg.height * 4) =
       catImg.data ∧
     (catImg.data ++ janImg.data).drop (catImg.width * catImg.height * 4) =
       janImg.data) :=
  ⟨by decide, by decide, c1_driver_bands janImg catImg (by decide) (by decide)⟩

/-- C2: for any two decodable RGBA images of equal width, with the save
succeeding, `join_photos_vertically` returns `Ok(())` and writes the image
of the shared width and summed height whose top `W × H1` region is
bit-identical to the first input and whose bottom `W × H2` region is
bit-identical to the second input. -/
theorem c2_join_bands (first second : Img) (h1 : first.wf)
    (hw : first.width = second.width) :
    (join_photos_vertically (some first) (some second) true).result =
      Except.ok () ∧
    (join_photos_vertically (some first) (some second) true).written =
      some ⟨first.width, first.height + second.height,
        first.data ++ second.data⟩ ∧
    (first.data ++ second.data).take (first.width * first.height * 4) =
      first.data ∧
    (first.data ++ second.data).drop (first.width * first.height * 4) =
      second.data :=
  join_ok_bands first second h1 hw

/-- C2 (witness): the property on the concrete 1×1 image joined with
itself. -/
theorem c2_join_bands_witness :
    narrowImg.wf ∧ narrowImg.width = narrowImg.width ∧
    ((join_photos_vertically (some narrowImg) (some narrowImg) true).result =
        Except.ok () ∧
     (join_photos_vertically (some narrowImg) (some narrowImg) true).written =
        some ⟨narrowImg.width, narrowImg.height + narrowImg.height,
          narrowImg.data ++ narrowImg.data⟩ ∧
     (narrowImg.data ++ narrowImg.data).take
        (narrowImg.width * narrowImg.height * 4) = narrowImg.data ∧
     (narrowImg.data ++ narrowImg.data).drop
        (narrowImg.width * narrowImg.height * 4) = narrowImg.data) :=
  ⟨by decide, rfl, c2_join_bands narrowImg narrowImg (by decide) rfl⟩

/-- C3: for any two decodable images of differing widths,
`join_photos_vertically` returns the `MismatchSize` error and writes
nothing, whatever the save outcome would have been. -/
theorem c3_mismatch_no_write (first second : Img) (saveOk : Bool)
    (hw : first.width ≠ second.width) :
    join_photos_vertically (some first) (some second) saveOk =
      ⟨Except.error AppError.MismatchSize, none⟩ := by
  simp [join_photos_vertically, hw]

/-- C3 (witness): the 1×1 and 2×1 images differ in width and joining them
is the `MismatchSize` error with nothing written. -/
theorem c3_mismatch_no_write_witness :
    narrowImg.width ≠ wideImg.width ∧
    join_photos_vertically (some narrowImg) (some wideImg) true =
      ⟨Except.error AppError.MismatchSize, none⟩ :=
  ⟨by decide, c3_mismatch_no_write narrowImg wideImg true (by decide)⟩

/-- C4: whenever the quantized palette has entries at indices 0 and 200,
`get_color_palette` returns the pair of exactly those entries with the
alpha byte of each forced to 255, regardless of the entries' own alpha. -/
theorem c4_palette_entries (palette : List ExoColor) (p0 p200 : ExoColor)
    (h0 : palette.get? 0 = some p0) (h200 : palette.get? 200 = some p200) :
    get_color_palette palette =
      some ⟨[p0.r, p0.g, p0.b, 255], [p200.r, p200.g, p200.b, 255]⟩ := by
  unfold get_color_palette
  rw [h0, h200]

/-- C4 (witness): on the concrete 201-entry palette with non-opaque
entries, the result is entry 0 and entry 200 with alpha forced to 255. -/
theorem c4_palette_entries_witness :
    c4pal.get? 0 = some ⟨1, 2, 3, 7⟩ ∧
    c4pal.get? 200 = some ⟨4, 5, 6, 9⟩ ∧
    get_color_palette c4pal = some ⟨[1, 2, 3, 255], [4, 5, 6, 255]⟩ :=
  ⟨by decide, by decide,
   c4_palette_entries c4pal ⟨1, 2, 3, 7⟩ ⟨4, 5, 6, 9⟩ (by decide) (by decide)⟩

/-- C5: on a palette all of whose entries have the color of a solid-color
image, palette extraction yields `primary == secondary ==` that color with
full opacity when the palette reaches index 200, and is the out-of-bounds
failure (`none`, a Rust index panic) when the quantizer produced at most
200 entries. -/
theorem c5_solid_color (palette : List ExoColor) (c : ExoColor)
    (hall : ∀ e ∈ palette, e = c) :
    (palette.length ≤ 200 → get_color_palette palette = none) ∧
    (200 < palette.length →
      get_color_palette palette =
        some ⟨[c.r, c.g, c.b, 255], [c.r, c.g, c.b, 255]⟩) := by
  constructor
  · intro h
    have h200 : palette.get? 200 = none := List.get?_eq_none.mpr h
    unfold get_color_palette
    rw [h200]
    cases palette.get? 0 <;> rfl
  · intro h
    have h0lt : 0 < palette.length := by omega
    have h0 : palette.get? 0 = some (palette.get ⟨0, h0lt⟩) :=
      List.get?_eq_get h0lt
    have h200 : palette.get? 200 = some (palette.get ⟨200, h⟩) :=
      List.get?_eq_get h
    have e0 : palette.get ⟨0, h0lt⟩ = c := hall _ (List.get_mem _ _ _)
    have e200 : palette.get ⟨200, h⟩ = c := hall _ (List.get_mem _ _ _)
    unfold get_color_palette
    rw [h0, h200, e0, e200]

/-- C5 (witness): a solid 201-entry palette of color (9, 8, 7, 3) yields
that color twice at full opacity, while a solid 5-entry palette is the
out-of-bounds failure. -/
theorem c5_solid_color_witness :
    200 < (List.replicate 201 (⟨9, 8, 7, 3⟩ : ExoColor)).length ∧
    get_color_palette (List.replicate 201 (⟨9, 8, 7, 3⟩ : ExoColor)) =
      some ⟨[9, 8, 7, 255], [9, 8, 7, 255]⟩ ∧
    (List.replicate 5 (⟨9, 8, 7, 3⟩ : ExoColor)).length ≤ 200 ∧
    get_color_palette (List.replicate 5 (⟨9, 8, 7, 3⟩ : ExoColor)) = none :=
  ⟨by decide,
   (c5_solid_color _ ⟨9, 8, 7, 3⟩ (by decide)).2 (by decide),
   by decide,
   (c5_solid_color _ ⟨9, 8, 7, 3⟩ (by decide)).1 (by decide)⟩

/-- C6 (counterexample): two distinct (month stem, image stem) pairs can
collide on the output path when a stem contains a hyphen: months `a-b` and
`a` with images `c` and `b-c` both map to `e/a-b-c.png`. -/
theorem c6_path_collision_cex :
    output_path ['e'] ['a', '-', 'b'] ['c'] =
      output_path ['e'] ['a'] ['b', '-', 'c'] ∧
    ¬ ((['a', '-', 'b'] : List Char) = ['a'] ∧
       (['c'] : List Char) = ['b', '-', 'c']) := by
  decide

/-- C6 (amended): the driver writes each pair's composite to exactly
`{export_dir}/{month_stem}-{image_stem}.png`; provided the month stems
contain no hyphen and the stems are distinct within each directory listing,
the M×N pairs map to M×N pairwise distinct output paths. -/
theorem c6_unique_paths (e : List Char) (months images : List (List Char))
    (hm : months.Nodup) (hi : images.Nodup)
    (hmd : ∀ m ∈ months, '-' ∉ m) :
    ((months.product images).map fun p => output_path e p.1 p.2).length =
        months.length * images.length ∧
    ((months.product images).map fun p => output_path e p.1 p.2).Nodup := by
  constructor
  · rw [List.length_map]
    exact List.length_product months images
  · refine List.Nodup.map_on ?_ (hm.product hi)
    rintro ⟨m1, i1⟩ hp1 ⟨m2, i2⟩ hp2 heq
    have hm1 := hmd _ (List.mem_product.mp hp1).1
    have hm2 := hmd _ (List.mem_product.mp hp2).1
    obtain ⟨e1, e2⟩ := output_path_inj hm1 hm2 heq
    exact Prod.ext e1 e2

/-- C6 (witness): two month stems and one image stem, hyphen-free and
distinct, give 2×1 distinct output paths. -/
theorem c6_unique_paths_witness :
    ((([['j', 'a', 'n'], ['f', 'e', 'b']] : List (List Char)).product
        [['c', 'a', 't']]).map
      fun p => output_path ['e'] p.1 p.2).length = 2 * 1 ∧
    ((([['j', 'a', 'n'], ['f', 'e', 'b']] : List (List Char)).product
        [['c', 'a', 't']]).map
      fun p => output_path ['e'] p.1 p.2).Nodup :=
  c6_unique_paths ['e'] [['j', 'a', 'n'], ['f', 'e', 'b']] [['c', 'a', 't']]
    (by decide) (by decide) (by decide)

/-- C7: `join_photos_vertically` maps each failure to its specific error
kind: a failed open/decode of either source is `NotFound`, a width
mismatch is `MismatchSize`, and a failed save of the combined buffer is
`CouldntSaveFile`. -/
theorem c7_error_kinds (first second : Img) :
    (∀ d saveOk, join_photos_vertically none d saveOk =
        ⟨Except.error AppError.NotFound, none⟩) ∧
    (∀ saveOk, join_photos_vertically (some first) none saveOk =
        ⟨Except.error AppError.NotFound, none⟩) ∧
    (∀ saveOk, first.width ≠ second.width →
      (join_photos_vertically (some first) (some second) saveOk).result =
        Except.error AppError.MismatchSize) ∧
    (first.width = second.width →
      (join_photos_vertically (some first) (some second) false).result =
        Except.error AppError.CouldntSaveFile) := by
  refine ⟨fun d saveOk => rfl, fun saveOk => rfl, ?_, ?_⟩
  · intro saveOk hw
    simp [join_photos_vertically, hw]
  · intro hw
    simp [join_photos_vertically, hw]

/-- C7 (witness): each of the three error kinds at concrete inputs. -/
theorem c7_error_kinds_witness :
    join_photos_vertically none (some narrowImg) true =
      ⟨Except.error AppError.NotFound, none⟩ ∧
    join_photos_vertically (some narrowImg) none true =
      ⟨Except.error AppError.NotFound, none⟩ ∧
    (narrowImg.width ≠ wideImg.width ∧
     (join_photos_vertically (some narrowImg) (some wideImg) true).result =
       Except.error AppError.MismatchSize) ∧
    (narrowImg.width = narrowImg.width ∧
     (join_photos_vertically (some narrowImg) (some narrowImg) false).result =
       Except.error AppError.CouldntSaveFile) :=
  ⟨(c7_error_kinds narrowImg wideImg).1 (some narrowImg) true,
   (c7_error_kinds narrowImg wideImg).2.1 true,
   ⟨by decide, (c7_error_kinds narrowImg wideImg).2.2.1 true (by decide)⟩,
   ⟨rfl, (c7_error_kinds narrowImg narrowImg).2.2.2 rfl⟩⟩

/-- C8 (counterexample): `write_text` does not return a status code on
every input: when opening the composite fails it panics (the `expect`
call) instead of returning 0 or 1. -/
theorem c8_open_panics_cex :
    write_text false true = WriteTextOutcome.panicked ∧
    WriteTextOutcome.panicked ≠ WriteTextOutcome.ret 0 ∧
    WriteTextOutcome.panicked ≠ WriteTextOutcome.ret 1 := by
  decide

/-- C8 (amended): on every input whose composite image opens successfully,
`write_text` returns status 1 when the save succeeds and 0 when it fails
(an open failure panics via `expect` instead); and the batch-loop body
discards that status, so the loop's outcome is identical whether the
overlay save succeeded or failed. -/
theorem c8_status_ignored :
    (∀ saveOk : Bool, write_text true saveOk =
        WriteTextOutcome.ret (if saveOk then 1 else 0)) ∧
    (∀ monthDec imageDec joinSaveOk overlayOpenOk,
      process_pair monthDec imageDec joinSaveOk overlayOpenOk true =
        process_pair monthDec imageDec joinSaveOk overlayOpenOk false) := by
  constructor
  · intro s
    cases s <;> rfl
  · intro m i j o
    unfold process_pair
    rcases hr : (driver_join m i j).result with err | u <;>
      cases o <;> simp [hr, write_text]

/-- C9: on every successfully opened composite, `write_text` draws the
literal text "20" at pixel coordinates (380, 3035) in the primary color and
"19" at (660, 3035) in the secondary color, both at font scale 250 × 250,
then saves back to the very path it opened, overwriting it. -/
theorem c9_overlay_ops (path : String) (c : Color) :
    write_text_ops path c =
      [ DrawOp.drawText c.primary 380 3035 ⟨250, 250⟩ "20",
        DrawOp.drawText c.secondary 660 3035 ⟨250, 250⟩ "19",
        DrawOp.saveTo path ] := rfl

/-- C10: with fewer than three user-supplied arguments (fewer than four
`std::env::args()` elements, the program name included) `main` prints the
usage text and exits with status 1, before any directory listing or image
work; with at least three user-supplied arguments it proceeds, binding the
first three in order to months-source, images-source and
export-destination and never reading any further argument. -/
theorem c10_cli_args :
    (∀ args : List String, args.length < 4 →
      main_args args = CliOutcome.usageExit 1) ∧
    (∀ prog a b c rest,
      main_args (prog :: a :: b :: c :: rest) =
        CliOutcome.proceed ⟨a, b, c⟩) := by
  constructor
  · intro args h
    unfold main_args Paths.new
    rw [if_pos h]
  · intro prog a b c rest
    unfold main_args Paths.new
    rw [if_neg (by simp)]

/-- C10 (witness): a single-element argument list exits with usage, and a
five-element one proceeds on the first three user arguments, ignoring the
fifth element. -/
theorem c10_cli_args_witness :
    (["prog"] : List String).length < 4 ∧
    main_args ["prog"] = CliOutcome.usageExit 1 ∧
    main_args ["prog", "m", "i", "o", "extra"] =
      CliOutcome.proceed ⟨"m", "i", "o"⟩ :=
  ⟨by decide,
   c10_cli_args.1 ["prog"] (by decide),
   c10_cli_args.2 "prog" "m" "i" "o" ["extra"]⟩

end ImagesConnector
